import Mathlib

/-!
# Verification of the Binance orchestrator's incremental sync core

This development gives a shallow embedding, in Lean, of the incremental
synchronization logic of the `binance-orchestrator` service
(`BinanceSyncService` together with the parts of `BinanceDbService` it relies
on), and proves properties of that embedding.

Modelling conventions:
* JavaScript millisecond timestamps are modelled as `Int` (JS numbers are
  idealized as unbounded integers; all arithmetic in the modelled code is
  integer-valued addition, subtraction, `Math.min` and comparisons).
* Thrown exceptions are modelled with `Except String`.
* The external collaborators (the binance-proxy upstream, the binance-db-api
  ledger) are modelled by an oracle that lists, in order, the responses the
  environment produces for the successive calls the service makes.
* TypeScript string-literal union types (job statuses) are modelled as
  `String`s together with explicit lists of the members of the union.
-/

namespace BinanceOrchestrator

-- `DecidableEq` for `Except`, needed to evaluate concrete run outcomes.
deriving instance DecidableEq for Except

/-! ## Constants of `BinanceSyncService` -/

/-- `private readonly CHUNK_SIZE_DAYS = 7`. -/
def CHUNK_SIZE_DAYS : Int := 7

/-- `private readonly MAX_RECORDS_PER_REQUEST = 1000`. -/
def MAX_RECORDS_PER_REQUEST : Nat := 1000

/-- `private readonly INITIAL_SYNC_DAYS = 90`. -/
def INITIAL_SYNC_DAYS : Int := 90

/-- `const chunkSizeMs = this.CHUNK_SIZE_DAYS * 24 * 60 * 60 * 1000`
(from `divideTimeRangeIntoChunks`). -/
def chunkSizeMs : Int := CHUNK_SIZE_DAYS * 24 * 60 * 60 * 1000

theorem chunkSizeMs_eq : chunkSizeMs = 604800000 := by
  norm_num [chunkSizeMs, CHUNK_SIZE_DAYS]

/-! ## `divideTimeRangeIntoChunks` -/

/-- One chunk produced by `divideTimeRangeIntoChunks`: an inclusive
`{ startTime, endTime }` pair. -/
structure TimeChunk where
  startTime : Int
  endTime : Int
deriving DecidableEq, Repr

/-- The loop body of `divideTimeRangeIntoChunks`, written with explicit fuel so
that the definition is structurally recursive (and hence evaluates by `decide`).
The loop is

    while (currentStart < endTime) {
      const currentEnd = Math.min(currentStart + chunkSizeMs, endTime);
      chunks.push({ startTime: currentStart, endTime: currentEnd });
      currentStart = currentEnd + 1; // +1ms to avoid overlap
    }

`divideTimeRangeIntoChunks` below supplies fuel that is always sufficient
(each iteration except the last advances `currentStart` by exactly
`chunkSizeMs + 1`), so the fuel never runs out on the chosen bound; this is
proved in `chunksFromAux_congr` / `divideTimeRangeIntoChunks_unfold`. -/
def chunksFromAux : Nat → Int → Int → List TimeChunk
  | 0, _, _ => []
  | fuel + 1, currentStart, endTime =>
    if currentStart < endTime then
      let currentEnd := min (currentStart + chunkSizeMs) endTime
      { startTime := currentStart, endTime := currentEnd } ::
        chunksFromAux fuel (currentEnd + 1) endTime
    else
      []

/-- The fuel bound used by `divideTimeRangeIntoChunks`: the loop runs at most
`(endTime - startTime) / (chunkSizeMs + 1) + 1` times. -/
def chunkFuel (startTime endTime : Int) : Nat :=
  (endTime - startTime).toNat / (chunkSizeMs.toNat + 1) + 1

/-- `BinanceSyncService.divideTimeRangeIntoChunks(startTime, endTime)`. -/
def divideTimeRangeIntoChunks (startTime endTime : Int) : List TimeChunk :=
  chunksFromAux (chunkFuel startTime endTime) startTime endTime

theorem chunkFuel_eq (s e : Int) :
    chunkFuel s e = (e - s).toNat / 604800001 + 1 := by
  have h : chunkSizeMs.toNat = 604800000 := by
    rw [chunkSizeMs_eq]
    decide
  simp [chunkFuel, h]

theorem chunksFromAux_stop (fuel : Nat) (s e : Int) (h : ¬ s < e) :
    chunksFromAux fuel s e = [] := by
  cases fuel <;> simp [chunksFromAux, h]

/-- Any two sufficient fuels produce the same chunk list. -/
theorem chunksFromAux_congr :
    ∀ (f g : Nat) (s e : Int), chunkFuel s e ≤ f → chunkFuel s e ≤ g →
      chunksFromAux f s e = chunksFromAux g s e := by
  intro f
  induction f with
  | zero => intro g s e hf; simp [chunkFuel] at hf
  | succ n ih =>
    intro g s e hf hg
    match g, hg with
    | g' + 1, hg =>
      by_cases h : s < e
      · simp only [chunksFromAux, h, if_true]
        rcases le_or_lt e (s + chunkSizeMs) with hc | hc
        · -- clamped: currentEnd = e, next start is e + 1, both tails are empty
          have hmin : min (s + chunkSizeMs) e = e := min_eq_right hc
          rw [hmin, chunksFromAux_stop n (e + 1) e (by omega),
            chunksFromAux_stop g' (e + 1) e (by omega)]
        · -- not clamped: currentEnd = s + chunkSizeMs
          have hmin : min (s + chunkSizeMs) e = s + chunkSizeMs := min_eq_left hc.le
          rw [hmin]
          have hfuel : chunkFuel (s + chunkSizeMs + 1) e + 1 = chunkFuel s e := by
            rw [chunkFuel_eq, chunkFuel_eq, chunkSizeMs_eq]
            rw [chunkSizeMs_eq] at hc
            omega
          have h1 : chunkFuel (s + chunkSizeMs + 1) e ≤ n := by omega
          have h2 : chunkFuel (s + chunkSizeMs + 1) e ≤ g' := by omega
          rw [ih g' (s + chunkSizeMs + 1) e h1 h2]
      · rw [chunksFromAux_stop _ _ _ h, chunksFromAux_stop _ _ _ h]

/-- The one-step unfolding of `divideTimeRangeIntoChunks`, i.e. the loop of the
source function. -/
theorem divideTimeRangeIntoChunks_unfold (s e : Int) :
    divideTimeRangeIntoChunks s e =
      if s < e then
        { startTime := s, endTime := min (s + chunkSizeMs) e } ::
          divideTimeRangeIntoChunks (min (s + chunkSizeMs) e + 1) e
      else
        [] := by
  by_cases h : s < e
  · simp only [h, if_true]
    show chunksFromAux (chunkFuel s e) s e = _
    have h1 : chunkFuel s e = (chunkFuel s e - 1) + 1 := by
      have := chunkFuel_eq s e
      omega
    rw [h1]
    simp only [chunksFromAux, h, if_true]
    refine congrArg _ ?_
    rcases le_or_lt e (s + chunkSizeMs) with hc | hc
    · have hmin : min (s + chunkSizeMs) e = e := min_eq_right hc
      rw [hmin, chunksFromAux_stop _ (e + 1) e (by omega)]
      unfold divideTimeRangeIntoChunks
      rw [chunksFromAux_stop _ (e + 1) e (by omega)]
    · have hmin : min (s + chunkSizeMs) e = s + chunkSizeMs := min_eq_left hc.le
      rw [hmin]
      apply chunksFromAux_congr
      · rw [chunkFuel_eq, chunkFuel_eq, chunkSizeMs_eq]
        rw [chunkSizeMs_eq] at hc
        omega
      · exact le_refl _
  · simp only [h, if_false]
    exact chunksFromAux_stop _ _ _ h

theorem chunksFromAux_head_start (fuel : Nat) (s e : Int) (c : TimeChunk)
    (l : List TimeChunk) (h : chunksFromAux fuel s e = c :: l) : c.startTime = s := by
  cases fuel with
  | zero => simp [chunksFromAux] at h
  | succ n =>
    by_cases hse : s < e
    · simp only [chunksFromAux, hse, if_true] at h
      injection h with h1 _
      rw [← h1]
    · simp [chunksFromAux, hse] at h

/-- Adjacent chunks are contiguous: each chunk starts one millisecond after the
previous chunk ends. -/
theorem chunksFromAux_chain (fuel : Nat) : ∀ (s e : Int),
    List.Chain' (fun a b => b.startTime = a.endTime + 1) (chunksFromAux fuel s e) := by
  induction fuel with
  | zero => intro s e; simp [chunksFromAux]
  | succ n ih =>
    intro s e
    by_cases hse : s < e
    · simp only [chunksFromAux, hse, if_true]
      refine List.chain'_cons'.mpr ⟨?_, ih _ _⟩
      intro y hy
      cases hl : chunksFromAux n (min (s + chunkSizeMs) e + 1) e with
      | nil => rw [hl] at hy; simp at hy
      | cons a l' =>
        rw [hl] at hy
        simp only [List.head?_cons, Option.mem_def, Option.some.injEq] at hy
        have ha := chunksFromAux_head_start n _ e a l' hl
        rw [← hy, ha]
    · simp [chunksFromAux_stop _ _ _ hse]

/-- The endTime of the last chunk: it is the window end, except when the window
length is an exact positive multiple of `chunkSizeMs + 1`, in which case the
loop stops one millisecond short. -/
theorem chunksFromAux_getLast (fuel : Nat) : ∀ (s e : Int), chunkFuel s e ≤ fuel → s < e →
    ((chunksFromAux fuel s e).getLast?).map TimeChunk.endTime =
      some (if (e - s) % (chunkSizeMs + 1) = 0 then e - 1 else e) := by
  induction fuel with
  | zero =>
    intro s e hf _
    rw [chunkFuel_eq] at hf
    omega
  | succ n ih =>
    intro s e hf hse
    simp only [chunksFromAux, hse, if_true]
    rcases le_or_lt e (s + chunkSizeMs) with hc | hc
    · -- clamped final chunk ⟨s, e⟩; the next start e + 1 exits the loop
      have hmin : min (s + chunkSizeMs) e = e := min_eq_right hc
      rw [hmin, chunksFromAux_stop n (e + 1) e (by omega)]
      have hmod : ¬ (e - s) % (chunkSizeMs + 1) = 0 := by
        rw [chunkSizeMs_eq]
        rw [chunkSizeMs_eq] at hc
        omega
      simp [hmod]
    · have hmin : min (s + chunkSizeMs) e = s + chunkSizeMs := min_eq_left hc.le
      rw [hmin]
      by_cases hc2 : s + chunkSizeMs + 1 < e
      · -- the tail is nonempty: recurse
        have hftail : chunkFuel (s + chunkSizeMs + 1) e ≤ n := by
          rw [chunkFuel_eq] at hf ⊢
          rw [chunkSizeMs_eq] at hc ⊢
          omega
        have htail := ih (s + chunkSizeMs + 1) e hftail hc2
        have hmodeq : (e - (s + chunkSizeMs + 1)) % (chunkSizeMs + 1)
            = (e - s) % (chunkSizeMs + 1) := by
          rw [chunkSizeMs_eq]
          omega
        rw [hmodeq] at htail
        cases hl : chunksFromAux n (s + chunkSizeMs + 1) e with
        | nil => rw [hl] at htail; simp at htail
        | cons a l' =>
          rw [hl] at htail
          rw [List.getLast?_cons_cons]
          exact htail
      · -- the tail is empty: e = s + chunkSizeMs + 1 exactly (the lost millisecond)
        rw [chunksFromAux_stop n (s + chunkSizeMs + 1) e (by omega)]
        have he : e = s + chunkSizeMs + 1 := by omega
        have hmod : (e - s) % (chunkSizeMs + 1) = 0 := by
          rw [chunkSizeMs_eq] at he ⊢
          omega
        simp only [List.getLast?_singleton, Option.map_some, hmod, if_true]
        rw [he]
        norm_num

theorem divideTimeRangeIntoChunks_eq_nil_iff (s e : Int) :
    divideTimeRangeIntoChunks s e = [] ↔ e ≤ s := by
  rw [divideTimeRangeIntoChunks_unfold]
  by_cases h : s < e
  · simp only [h, if_true]
    constructor
    · intro hc
      exact absurd hc (List.cons_ne_nil _ _)
    · intro hc
      omega
  · simp only [h, if_false, true_iff]
    omega

theorem divideTimeRangeIntoChunks_chain (s e : Int) :
    List.Chain' (fun a b => b.startTime = a.endTime + 1) (divideTimeRangeIntoChunks s e) :=
  chunksFromAux_chain _ s e

theorem divideTimeRangeIntoChunks_head (s e : Int) (h : s < e) :
    (divideTimeRangeIntoChunks s e).head?.map TimeChunk.startTime = some s := by
  cases hl : divideTimeRangeIntoChunks s e with
  | nil =>
    rw [divideTimeRangeIntoChunks_eq_nil_iff] at hl
    omega
  | cons a l' =>
    have := chunksFromAux_head_start _ s e a l' hl
    simp [this]

theorem divideTimeRangeIntoChunks_getLast (s e : Int) (h : s < e) :
    ((divideTimeRangeIntoChunks s e).getLast?).map TimeChunk.endTime =
      some (if (e - s) % (chunkSizeMs + 1) = 0 then e - 1 else e) :=
  chunksFromAux_getLast _ s e (le_refl _) h

/-! ## Upstream record types (`binance-proxy.types`) and the record transforms -/

/-- `DepositResponse` from the Binance proxy. String fields model the JS
strings; the JS truthiness test `if (x)` on a string is modelled as `x ≠ ""`. -/
structure DepositResponse where
  amount : String
  coin : String
  network : String
  status : Int
  address : String
  addressTag : String
  txId : String
  insertTime : Int
  transferType : Int
  unlockConfirm : Int
  confirmTimes : String
deriving DecidableEq, Repr

/-- `WithdrawResponse` from the Binance proxy. `applyTime`/`completeTime` are
date strings that the service parses with `new Date(...)`; that parser is kept
abstract (see the `dateMs` parameter of the withdrawal definitions). -/
structure WithdrawResponse where
  id : String
  amount : String
  transactionFee : String
  coin : String
  status : Int
  address : String
  addressTag : String
  txId : String
  applyTime : String
  network : String
  transferType : Int
  info : String
  confirmNo : Int
  walletType : Int
  txKey : String
  completeTime : String
deriving DecidableEq, Repr

/-- `TransactionInput` (orchestrator.types), as constructed by the two
transforms. `utcTime` is kept as a millisecond timestamp (`new Date(ms)` for
deposits, the parsed date string for withdrawals). The `raw` passthrough
payload — a verbatim copy of upstream fields used only for audit — is not
modelled; no property below depends on it. -/
structure TransactionInput where
  appUserId : String
  binanceUserId : String
  utcTime : Int
  account : String
  operation : String
  coin : String
  change : String
  remark : Option String
deriving DecidableEq, Repr

/-- `BinanceSyncService.transformDepositToTransaction`. Throws (returns
`.error`) exactly when `deposit.status !== 1`. -/
def transformDepositToTransaction (deposit : DepositResponse)
    (appUserId binanceUserId : String) : Except String TransactionInput :=
  if deposit.status ≠ 1 then
    .error ("Deposit has non-success status: " ++ toString deposit.status)
  else
    let account := if deposit.transferType = 0 then "Spot" else "Funding"
    let remarkParts : List String :=
      (if deposit.address ≠ "" then ["Address: " ++ deposit.address] else []) ++
      (if deposit.txId ≠ "" then ["TxID: " ++ deposit.txId] else [])
    let remark : Option String :=
      if remarkParts.length > 0 then some (String.intercalate ", " remarkParts) else none
    .ok { appUserId := appUserId, binanceUserId := binanceUserId,
          utcTime := deposit.insertTime, account := account, operation := "deposit",
          coin := deposit.coin, change := deposit.amount, remark := remark }

/-- `BinanceSyncService.transformWithdrawalToTransaction`. `dateMs` models the
JS `new Date(str).getTime()` conversion of the date strings. This transform
never throws. -/
def transformWithdrawalToTransaction (dateMs : String → Int)
    (withdrawal : WithdrawResponse) (appUserId binanceUserId : String) : TransactionInput :=
  let account := if withdrawal.transferType = 0 then "Spot" else "Funding"
  let remarkParts : List String :=
    (if withdrawal.address ≠ "" then ["Address: " ++ withdrawal.address] else []) ++
    (if withdrawal.txId ≠ "" then ["TxID: " ++ withdrawal.txId] else []) ++
    (if withdrawal.transactionFee ≠ "" then ["Fee: " ++ withdrawal.transactionFee] else [])
  let remark : Option String :=
    if remarkParts.length > 0 then some (String.intercalate ", " remarkParts) else none
  let timeString :=
    if withdrawal.completeTime ≠ "" then withdrawal.completeTime else withdrawal.applyTime
  { appUserId := appUserId, binanceUserId := binanceUserId,
    utcTime := dateMs timeString, account := account, operation := "withdraw",
    coin := withdrawal.coin, change := "-" ++ withdrawal.amount, remark := remark }

/-! ## The ledger (`BinanceDbService`) interface, as seen by the sync service -/

/-- A `{ startTime, endTime }` pair, as returned by `calculateTimeRange` and
`getNextTimeRange`. -/
structure TimeRange where
  startTime : Int
  endTime : Int
deriving DecidableEq, Repr

/-- The part of the record returned by `getLastSuccessfulSyncJob` that
`calculateTimeRange` inspects: whether the record carries a `nextStartTime`
field (`'nextStartTime' in lastJob`) and its value. -/
structure LastSyncJobRecord where
  nextStartTime : Option Int
deriving DecidableEq, Repr

/-- The status values accepted by `BinanceDbService.createSyncJob`'s `status`
parameter (the TypeScript union `'success' | 'failed' | 'partial'`). -/
def createSyncJobAllowedStatuses : List String := ["success", "failed", "partial"]

/-- The payload of a `createSyncJob` call. -/
structure CreateSyncJobPayload where
  jobType : String
  startTime : Int
  endTime : Int
  status : String
deriving DecidableEq, Repr

/-- The payload of an `updateSyncJob` call: every field of the TypeScript
update type is optional. -/
structure UpdateSyncJobPayload where
  status : Option String
  recordsProcessed : Option Nat
  recordsInserted : Option Nat
  recordsDuplicated : Option Nat
  recordsFailed : Option Nat
  errorMessage : Option String
  nextStartTime : Option Int
deriving DecidableEq, Repr

/-- Responses of the ledger lookups made by `calculateTimeRange`, plus the
clock. `getLastSuccessfulSyncJob` maps an upstream 404 to `null` (modelled
`.ok none`) and rethrows every other error (modelled `.error msg`). -/
structure LedgerOracle where
  nextTimeRange : Except String TimeRange
  lastSuccessfulSyncJob : Except String (Option LastSyncJobRecord)
  now : Int
deriving DecidableEq, Repr

/-- JS `x || y` for an optional number: `undefined` and `0` are falsy. -/
def jsOrNum (x : Option Int) (dflt : Int) : Int :=
  match x with
  | some v => if v = 0 then dflt else v
  | none => dflt

/-- `BinanceSyncService.calculateTimeRange(jobType, forceStartTime,
forceEndTime)`. The `jobType` argument only selects which ledger the oracle
answers for; it is kept for fidelity. An `.error` result models the function
throwing (which happens exactly when, after `getNextTimeRange` fails, the
fallback `getLastSuccessfulSyncJob` call throws a non-404 error: that call is
not guarded by any try/catch of its own). -/
def calculateTimeRange (o : LedgerOracle) (jobType : String)
    (forceStartTime forceEndTime : Option Int) : Except String TimeRange :=
  -- If forced times are provided, use them
  if forceStartTime.isSome ∧ forceEndTime.isSome then
    .ok { startTime := forceStartTime.getD 0, endTime := forceEndTime.getD 0 }
  else
    match o.nextTimeRange with
    | .ok timeRange => .ok timeRange
    | .error _ =>
      -- Fallback: check last successful sync job
      match o.lastSuccessfulSyncJob with
      | .error msg => .error msg
      | .ok lastJob =>
        match lastJob with
        | some job =>
          match job.nextStartTime with
          | some nst => .ok { startTime := nst, endTime := o.now }
          | none =>
            -- record without a nextStartTime field: default lookback
            let endTime := jsOrNum forceEndTime o.now
            let startTime :=
              jsOrNum forceStartTime (endTime - INITIAL_SYNC_DAYS * 24 * 60 * 60 * 1000)
            .ok { startTime := startTime, endTime := endTime }
        | none =>
          -- First execution: sync from 90 days ago
          let endTime := jsOrNum forceEndTime o.now
          let startTime :=
            jsOrNum forceStartTime (endTime - INITIAL_SYNC_DAYS * 24 * 60 * 60 * 1000)
          .ok { startTime := startTime, endTime := endTime }

/-! ## The page loop, the chunk loop, and the whole sync run

The environment (upstream pages, bulk-save results, ledger writes) is
modelled by an oracle listing the responses to the successive calls the run
makes, in program order. -/

/-- Result object of `saveBulkData`; all three counts are optional in the
TypeScript access (`bulkResult.inserted || 0` etc.). -/
structure BulkSaveResult where
  inserted : Option Nat
  duplicated : Option Nat
  failed : Option Nat
deriving DecidableEq, Repr

/-- The environment's response to one upstream history fetch, paired with the
response the bulk save would get if this page triggers one. -/
inductive PageEvent (α : Type) where
  | page (records : List α) (saveResult : Except String BulkSaveResult)
  | fetchError (msg : String)
deriving DecidableEq, Repr

/-- The four running totals of a sync run. -/
structure Counters where
  processed : Nat
  inserted : Nat
  duplicated : Nat
  failed : Nat
deriving DecidableEq, Repr

def Counters.zero : Counters := ⟨0, 0, 0, 0⟩

/-- The per-page body of the sync loops: transform every record of the page
(collecting successes and the count of per-record transform failures), then —
if at least one record transformed — fold the bulk-save response into the
totals, else count the whole page as failed.

Note: on a bulk-save error the source also sets `finalStatus = 'partial'`, but
that assignment is dead: `finalStatus` is unconditionally recomputed from the
totals before the finalize write, and overwritten with `'failed'` in the catch
block, so it is not modelled. -/
def processPage {α : Type} (transform : α → Except String TransactionInput)
    (records : List α) (saveResult : Except String BulkSaveResult)
    (st : Counters) : Counters :=
  let transactions := records.filterMap (fun r => (transform r).toOption)
  let failedTransforms := records.length - transactions.length
  if 0 < transactions.length then
    match saveResult with
    | .ok bulkResult =>
      { processed := st.processed + records.length
        inserted := st.inserted + bulkResult.inserted.getD 0
        duplicated := st.duplicated + bulkResult.duplicated.getD 0
        failed := st.failed + (bulkResult.failed.getD 0 + failedTransforms) }
    | .error _ =>
      { st with failed := st.failed + transactions.length }
  else
    { st with failed := st.failed + records.length }

/-- Output of the page loop over one chunk / of the chunk loop over a run:
`errorMsg = some msg` means the loop threw `msg` (aborting the run) with the
totals as they stood; `calls` lists the `(startTime, endTime)` bounds of the
fetch requests issued, in order; `rest` is the unconsumed oracle suffix. -/
structure LoopOut (α : Type) where
  errorMsg : Option String
  counters : Counters
  calls : List (Int × Int)
  rest : List (PageEvent α)
deriving DecidableEq, Repr

/-- The `while (hasMoreRecords)` pagination loop of `syncDeposits` /
`syncWithdrawals`, over one chunk ending at `chunkEnd`:
fetch `[cursor, chunkEnd]`; an empty page stops the loop before any counting;
otherwise the page is processed, and the loop continues (from the last
record's timestamp + 1) exactly when the page length equals
`MAX_RECORDS_PER_REQUEST`. An exhausted oracle is modelled as a fetch
transport failure (the environment stopped answering). -/
def pageLoop {α : Type} (transform : α → Except String TransactionInput)
    (lastTime : α → Int) (chunkEnd : Int) :
    Int → Counters → List (PageEvent α) → LoopOut α
  | cursor, st, [] =>
    { errorMsg := some "Failed to fetch history: no response", counters := st
      calls := [(cursor, chunkEnd)], rest := [] }
  | cursor, st, .fetchError msg :: evs =>
    { errorMsg := some msg, counters := st, calls := [(cursor, chunkEnd)], rest := evs }
  | cursor, st, .page records saveResult :: evs =>
    if records.length = 0 then
      { errorMsg := none, counters := st, calls := [(cursor, chunkEnd)], rest := evs }
    else
      let st' := processPage transform records saveResult st
      if records.length = MAX_RECORDS_PER_REQUEST then
        -- Continue from the last record's timestamp + 1ms
        let nextCursor :=
          match records.getLast? with
          | some lastRecord => lastTime lastRecord + 1
          | none => 0  -- unreachable: records.length = 1000 > 0
        let out := pageLoop transform lastTime chunkEnd nextCursor st' evs
        { out with calls := (cursor, chunkEnd) :: out.calls }
      else
        { errorMsg := none, counters := st', calls := [(cursor, chunkEnd)], rest := evs }

/-- The `for (const chunk of chunks)` loop: run the page loop on each chunk in
order, threading the totals and the oracle; a thrown fetch error aborts the
remaining chunks. -/
def chunkLoop {α : Type} (transform : α → Except String TransactionInput)
    (lastTime : α → Int) :
    List TimeChunk → Counters → List (PageEvent α) → LoopOut α
  | [], st, evs => { errorMsg := none, counters := st, calls := [], rest := evs }
  | chunk :: chunks, st, evs =>
    let out := pageLoop transform lastTime chunk.endTime chunk.startTime st evs
    match out.errorMsg with
    | some msg => { errorMsg := some msg, counters := out.counters
                    calls := out.calls, rest := out.rest }
    | none =>
      let out' := chunkLoop transform lastTime chunks out.counters out.rest
      { out' with calls := out.calls ++ out'.calls }

/-- Options of `syncDeposits` / `syncWithdrawals`. `binanceUserId` is optional
in the TypeScript type; the JS guard `if (!binanceUserId)` treats both
`undefined` and the empty string as missing. -/
structure SyncOptions where
  appUserId : String
  apiKey : String
  startTime : Option Int
  endTime : Option Int
  binanceUserId : Option String
deriving DecidableEq, Repr

/-- The environment of one whole sync run. `createResult` is the id carried by
the object `createSyncJob` resolves with (`.error` = the call threw);
`finalizeResult` / `abortUpdateResult` are the outcomes of the terminal
`updateSyncJob` write and of the `updateSyncJob` attempt made inside the catch
block. -/
structure SyncOracle (α : Type) where
  ledger : LedgerOracle
  createResult : Except String Int
  events : List (PageEvent α)
  finalizeResult : Except String Unit
  abortUpdateResult : Except String Unit
deriving DecidableEq, Repr

/-- One attempted `updateSyncJob` call: target id, payload sent, and whether
the write succeeded (a failed attempt persists nothing). -/
structure UpdateAttempt where
  id : Int
  payload : UpdateSyncJobPayload
  succeeded : Bool
deriving DecidableEq, Repr

/-- `SyncJobResult`, the value returned (resolved) by a successful run. -/
structure SyncJobResult where
  syncJobId : Int
  jobType : String
  startTime : Int
  endTime : Int
  recordsProcessed : Nat
  recordsInserted : Nat
  recordsDuplicated : Nat
  recordsFailed : Nat
  status : String
  errorMessage : Option String
  nextStartTime : Option Int
deriving DecidableEq, Repr

/-- Everything observable about one sync run: its outcome (returned result or
thrown error), the `createSyncJob` calls issued, the `updateSyncJob` attempts
issued (in order), the upstream fetch requests issued, the final internal
totals, and — instrumentation for the proofs — whether the chunk loop ran to
completion. -/
structure RunResult where
  outcome : Except String SyncJobResult
  createCalls : List CreateSyncJobPayload
  updateCalls : List UpdateAttempt
  fetchCalls : List (Int × Int)
  counters : Counters
  chunkLoopCompleted : Bool
deriving DecidableEq, Repr

/-- The payload of the `updateSyncJob` attempt made in the catch block:
`{ status: 'failed', errorMessage: err.message }` — no counters, no
`nextStartTime`. -/
def abortUpdatePayload (msg : String) : UpdateSyncJobPayload :=
  { status := some "failed", recordsProcessed := none, recordsInserted := none
    recordsDuplicated := none, recordsFailed := none
    errorMessage := some msg, nextStartTime := none }

def exceptToBool {ε α : Type} : Except ε α → Bool
  | .ok _ => true
  | .error _ => false

/-- The body shared verbatim by `BinanceSyncService.syncDeposits` and
`BinanceSyncService.syncWithdrawals` (the two functions differ only in the
record type, the per-record transform, the cursor timestamp of a record, the
`jobType` they tag the ledger rows with, and the wording of the missing-user
error). The instantiations `syncDeposits` / `syncWithdrawals` below supply
those parts.

Walkthrough, in source order:
1. throw if `binanceUserId` is falsy (outside the try block: no ledger write);
2. `calculateTimeRange`; its error aborts before the job row exists;
3. `divideTimeRangeIntoChunks`;
4. `createSyncJob({jobType, startTime, endTime, status: 'partial'})`; a throw
   aborts with `syncJobId` still null (no update attempt); a falsy id (0)
   throws `'Failed to create sync job record'` after `syncJobId` was assigned,
   so the catch block does attempt the failure update;
5. the chunk loop; a fetch error lands in the catch block, which attempts
   `updateSyncJob(id, {status:'failed', errorMessage})` (its own failure is
   swallowed) and rethrows;
6. `nextStartTime = endTime + 1`; final status from the totals; the finalize
   `updateSyncJob`; if that write throws, the catch block runs as in 5 and the
   caller sees the ledger error instead of the computed result. -/
def syncRun {α : Type} (jobType missingUserMsg : String)
    (transform : α → Except String TransactionInput) (lastTime : α → Int)
    (options : SyncOptions) (o : SyncOracle α) : RunResult :=
  if options.binanceUserId = none ∨ options.binanceUserId = some "" then
    { outcome := .error missingUserMsg, createCalls := [], updateCalls := []
      fetchCalls := [], counters := Counters.zero, chunkLoopCompleted := false }
  else
    match calculateTimeRange o.ledger jobType options.startTime options.endTime with
    | .error msg =>
      { outcome := .error msg, createCalls := [], updateCalls := []
        fetchCalls := [], counters := Counters.zero, chunkLoopCompleted := false }
    | .ok timeRange =>
      let chunks := divideTimeRangeIntoChunks timeRange.startTime timeRange.endTime
      let createPayload : CreateSyncJobPayload :=
        { jobType := jobType, startTime := timeRange.startTime
          endTime := timeRange.endTime, status := "partial" }
      match o.createResult with
      | .error msg =>
        { outcome := .error msg, createCalls := [createPayload], updateCalls := []
          fetchCalls := [], counters := Counters.zero, chunkLoopCompleted := false }
      | .ok syncJobId =>
        if syncJobId = 0 then
          { outcome := .error "Failed to create sync job record"
            createCalls := [createPayload]
            updateCalls := [⟨syncJobId, abortUpdatePayload "Failed to create sync job record",
              exceptToBool o.abortUpdateResult⟩]
            fetchCalls := [], counters := Counters.zero, chunkLoopCompleted := false }
        else
          let out := chunkLoop transform lastTime chunks Counters.zero o.events
          match out.errorMsg with
          | some msg =>
            { outcome := .error msg
              createCalls := [createPayload]
              updateCalls := [⟨syncJobId, abortUpdatePayload msg,
                exceptToBool o.abortUpdateResult⟩]
              fetchCalls := out.calls, counters := out.counters
              chunkLoopCompleted := false }
          | none =>
            let nextStartTime := timeRange.endTime + 1
            let finalStatus :=
              if out.counters.failed = 0 then "success"
              else if 0 < out.counters.processed then "partial"
              else "failed"
            let finalizePayload : UpdateSyncJobPayload :=
              { status := some finalStatus
                recordsProcessed := some out.counters.processed
                recordsInserted := some out.counters.inserted
                recordsDuplicated := some out.counters.duplicated
                recordsFailed := some out.counters.failed
                errorMessage := none
                nextStartTime := some nextStartTime }
            match o.finalizeResult with
            | .ok _ =>
              { outcome := .ok
                  { syncJobId := syncJobId, jobType := jobType
                    startTime := timeRange.startTime, endTime := timeRange.endTime
                    recordsProcessed := out.counters.processed
                    recordsInserted := out.counters.inserted
                    recordsDuplicated := out.counters.duplicated
                    recordsFailed := out.counters.failed
                    status := finalStatus, errorMessage := none
                    nextStartTime := some nextStartTime }
                createCalls := [createPayload]
                updateCalls := [⟨syncJobId, finalizePayload, true⟩]
                fetchCalls := out.calls, counters := out.counters
                chunkLoopCompleted := true }
            | .error msg =>
              { outcome := .error msg
                createCalls := [createPayload]
                updateCalls := [⟨syncJobId, finalizePayload, false⟩,
                  ⟨syncJobId, abortUpdatePayload msg, exceptToBool o.abortUpdateResult⟩]
                fetchCalls := out.calls, counters := out.counters
                chunkLoopCompleted := true }

/-- `BinanceSyncService.syncDeposits(options)`: the deposit instantiation.
The cursor timestamp of a deposit is its `insertTime`. -/
def syncDeposits (options : SyncOptions) (o : SyncOracle DepositResponse) : RunResult :=
  syncRun "deposit" "binanceUserId is required for syncing deposits"
    (fun d => transformDepositToTransaction d options.appUserId
      (options.binanceUserId.getD ""))
    (fun d => d.insertTime) options o

/-- `BinanceSyncService.syncWithdrawals(options)`: the withdrawal
instantiation. The cursor timestamp of a withdrawal is
`new Date(completeTime || applyTime).getTime()`, abstracted by `dateMs`. -/
def syncWithdrawals (dateMs : String → Int) (options : SyncOptions)
    (o : SyncOracle WithdrawResponse) : RunResult :=
  syncRun "withdraw" "binanceUserId is required for syncing withdrawals"
    (fun w => .ok (transformWithdrawalToTransaction dateMs w options.appUserId
      (options.binanceUserId.getD "")))
    (fun w => dateMs (if w.completeTime ≠ "" then w.completeTime else w.applyTime))
    options o

/-! ## Characterization of a run's observable behaviour -/

/-- The payload of the finalize write, expressed through the returned result
(the source builds both from the same totals). -/
def finalizePayloadOf (res : SyncJobResult) : UpdateSyncJobPayload :=
  { status := some res.status
    recordsProcessed := some res.recordsProcessed
    recordsInserted := some res.recordsInserted
    recordsDuplicated := some res.recordsDuplicated
    recordsFailed := some res.recordsFailed
    errorMessage := none
    nextStartTime := res.nextStartTime }

/-- A run that returns a result (no abort anywhere): the result carries
`nextStartTime = endTime + 1`, its status is derived from the failure/processed
totals, its window is the resolved window, and the one (successful) ledger
update is the finalize write of exactly those values. -/
theorem syncRun_ok {α : Type} (jobType missingUserMsg : String)
    (transform : α → Except String TransactionInput) (lastTime : α → Int)
    (options : SyncOptions) (o : SyncOracle α) (r : RunResult)
    (hr : syncRun jobType missingUserMsg transform lastTime options o = r)
    (res : SyncJobResult) (h : r.outcome = .ok res) :
    res.nextStartTime = some (res.endTime + 1) ∧
    res.status = (if res.recordsFailed = 0 then "success"
      else if 0 < res.recordsProcessed then "partial" else "failed") ∧
    res.errorMessage = none ∧
    r.updateCalls = [⟨res.syncJobId, finalizePayloadOf res, true⟩] ∧
    r.counters = ⟨res.recordsProcessed, res.recordsInserted,
      res.recordsDuplicated, res.recordsFailed⟩ ∧
    (∀ tr, calculateTimeRange o.ledger jobType options.startTime options.endTime = .ok tr →
      res.startTime = tr.startTime ∧ res.endTime = tr.endTime) := by
  unfold syncRun at hr
  repeat' split at hr
  all_goals subst hr
  · simp at h
  · simp at h
  · simp at h
  · simp at h
  · -- finalize write succeeded: split on the chunk loop's error state
    dsimp only at h
    split at h
    · simp at h
    · dsimp only at h
      injection h with h
      subst h
      simp_all [finalizePayloadOf]
  · -- finalize write failed: both error states contradict `h`
    dsimp only at h
    split at h
    · simp at h
    · simp at h

/-- A run that throws: every ledger update that succeeded is the catch-block
write `{status: 'failed', errorMessage: msg}` for the thrown message — in
particular it carries no counters and no `nextStartTime`. -/
theorem syncRun_error_updates {α : Type} (jobType missingUserMsg : String)
    (transform : α → Except String TransactionInput) (lastTime : α → Int)
    (options : SyncOptions) (o : SyncOracle α) (r : RunResult)
    (hr : syncRun jobType missingUserMsg transform lastTime options o = r)
    (msg : String) (h : r.outcome = .error msg) :
    ∀ u ∈ r.updateCalls, u.succeeded = true → u.payload = abortUpdatePayload msg := by
  unfold syncRun at hr
  repeat' split at hr
  all_goals subst hr
  · simp
  · simp
  · simp
  · simp at h
    subst h
    simp
  · -- finalize write succeeded
    dsimp only at h
    split at h
    · simp at h
      subst h
      simp_all
    · simp at h
  · -- finalize write failed
    dsimp only at h
    split at h
    · simp at h
      subst h
      simp_all
    · simp at h
      subst h
      simp_all

/-- Every `createSyncJob` call of any run tags the new row `'partial'` (with
the run's `jobType`). -/
theorem syncRun_createCalls {α : Type} (jobType missingUserMsg : String)
    (transform : α → Except String TransactionInput) (lastTime : α → Int)
    (options : SyncOptions) (o : SyncOracle α) (r : RunResult)
    (hr : syncRun jobType missingUserMsg transform lastTime options o = r) :
    ∀ p ∈ r.createCalls, p.status = "partial" ∧ p.jobType = jobType := by
  unfold syncRun at hr
  repeat' split at hr
  all_goals subst hr
  · simp
  · simp
  · simp
  · simp
  · dsimp only
    split
    · simp
    · simp
  · dsimp only
    split
    · simp
    · simp

/-! ## Pagination lemmas -/

theorem length_filterMap_toOption {α : Type}
    (transform : α → Except String TransactionInput) :
    ∀ (l : List α), (∀ r ∈ l, exceptToBool (transform r) = true) →
      (l.filterMap (fun r => (transform r).toOption)).length = l.length := by
  intro l
  induction l with
  | nil => simp
  | cons a t ih =>
    intro h
    have ha := h a (by simp)
    cases htr : transform a with
    | ok v =>
      have hstep : (a :: t).filterMap (fun r => (transform r).toOption)
          = v :: t.filterMap (fun r => (transform r).toOption) := by
        rw [List.filterMap_cons, htr]
        rfl
      rw [hstep, List.length_cons, List.length_cons,
        ih (fun r hr => h r (by simp [hr]))]
    | error e =>
      rw [htr] at ha
      simp [exceptToBool] at ha

/-! ## Concrete fixtures used by witnesses and counterexamples -/

/-- Options with a caller-forced window (the forced branch of
`calculateTimeRange` makes the ledger lookups irrelevant). -/
def exOptions (s e : Int) : SyncOptions :=
  { appUserId := "app", apiKey := "key", startTime := some s, endTime := some e
    binanceUserId := some "bin" }

/-- A ledger oracle that is never consulted (forced windows) or that answers
"no prior run". -/
def idleLedger : LedgerOracle :=
  { nextTimeRange := .error "Failed to get next time range: timeout"
    lastSuccessfulSyncJob := .ok none, now := 1700000000000 }

/-- A ledger oracle in which both lookups fail with transport faults. -/
def faultLedger : LedgerOracle :=
  { nextTimeRange := .error "Failed to get next time range: timeout"
    lastSuccessfulSyncJob :=
      .error "Failed to get last successful sync job: connect ECONNREFUSED"
    now := 1700000000000 }

/-- A successful deposit record. -/
def exDeposit : DepositResponse :=
  { amount := "1.00000000", coin := "BTC", network := "BTC", status := 1
    address := "", addressTag := "", txId := "", insertTime := 5
    transferType := 1, unlockConfirm := 0, confirmTimes := "" }

/-- A deposit of magnitude `"5.00000000"`. -/
def exDepositFive : DepositResponse :=
  { amount := "5.00000000", coin := "USDT", network := "TRX", status := 1
    address := "addr1", addressTag := "", txId := "tx1", insertTime := 1700000000000
    transferType := 0, unlockConfirm := 0, confirmTimes := "1/1" }

/-- A withdrawal of magnitude `"5.00000000"`. -/
def exWithdrawFive : WithdrawResponse :=
  { id := "w1", amount := "5.00000000", transactionFee := "0.1", coin := "USDT"
    status := 6, address := "addr2", addressTag := "", txId := "tx2"
    applyTime := "2024-01-01 00:00:00", network := "TRX", transferType := 0
    info := "", confirmNo := 1, walletType := 0, txKey := ""
    completeTime := "2024-01-01 01:00:00" }

/-- Environment of a run whose single chunk gets one empty page (a clean,
empty, successful run). -/
def exOracleHappy : SyncOracle DepositResponse :=
  { ledger := idleLedger, createResult := .ok 7
    events := [.page [] (.ok { inserted := none, duplicated := none, failed := none })]
    finalizeResult := .ok (), abortUpdateResult := .ok () }

/-- Environment whose very first fetch throws. -/
def exOracleAbort : SyncOracle DepositResponse :=
  { ledger := idleLedger, createResult := .ok 7
    events := [.fetchError "Failed to fetch deposit history: network error"]
    finalizeResult := .ok (), abortUpdateResult := .ok () }

/-- Environment with one successfully loaded page (progress) followed by a
fetch failure in the second chunk. -/
def exOracleProgressThenAbort : SyncOracle DepositResponse :=
  { ledger := idleLedger, createResult := .ok 7
    events :=
      [.page [exDeposit] (.ok { inserted := some 1, duplicated := some 0, failed := some 0 }),
       .fetchError "Failed to fetch deposit history: HTTP 500"]
    finalizeResult := .ok (), abortUpdateResult := .ok () }

/-- Environment in which the terminal ledger write fails. -/
def exOracleFinalizeFail : SyncOracle DepositResponse :=
  { ledger := idleLedger, createResult := .ok 7
    events := [.page [] (.ok { inserted := none, duplicated := none, failed := none })]
    finalizeResult := .error "Failed to update sync job: db down"
    abortUpdateResult := .ok () }

/-! ## C2 — chunk list structure -/

/-- C2 (counterexample): the claim "for every window `W` with
`W.start <= W.end` ... the final chunk's `endTime` equals `W.end`" fails on
the code. At `(0, 604800001)` — a window whose length is exactly
`chunkSizeMs + 1` — the final (only) chunk ends at `604800000 ≠ W.end`; and at
the degenerate window `(5, 5)` the chunk list is empty, so there is no first
or final chunk at all. -/
theorem divideTimeRangeIntoChunks_claim_counterexample :
    divideTimeRangeIntoChunks 0 604800001 = [{ startTime := 0, endTime := 604800000 }] ∧
    ¬ ((divideTimeRangeIntoChunks 0 604800001).getLast?.map TimeChunk.endTime
        = some 604800001) ∧
    divideTimeRangeIntoChunks 5 5 = [] := by
  decide

/-- C2 (amended): for every window with `W.start ≤ W.end`,
`divideTimeRangeIntoChunks` returns a list that is empty iff the window is
degenerate (`start = end`); when `start < end` the first chunk starts at
`W.start`, every subsequent chunk's `startTime` equals the previous chunk's
`endTime + 1`, and the final chunk's `endTime` equals `W.end` — except when
`W.end - W.start` is an exact (positive) multiple of `chunkSizeMs + 1`, in
which case the final chunk ends at `W.end - 1` (the last millisecond of the
window is never covered). -/
theorem divideTimeRangeIntoChunks_amended (s e : Int) (h : s ≤ e) :
    (divideTimeRangeIntoChunks s e = [] ↔ s = e) ∧
    List.Chain' (fun a b => b.startTime = a.endTime + 1) (divideTimeRangeIntoChunks s e) ∧
    (s < e → (divideTimeRangeIntoChunks s e).head?.map TimeChunk.startTime = some s) ∧
    (s < e → (divideTimeRangeIntoChunks s e).getLast?.map TimeChunk.endTime =
      some (if (e - s) % (chunkSizeMs + 1) = 0 then e - 1 else e)) := by
  refine ⟨?_, divideTimeRangeIntoChunks_chain s e,
    divideTimeRangeIntoChunks_head s e, divideTimeRangeIntoChunks_getLast s e⟩
  rw [divideTimeRangeIntoChunks_eq_nil_iff]
  omega

theorem divideTimeRangeIntoChunks_amended_witness :
    (0 : Int) ≤ 1000 ∧
    ((divideTimeRangeIntoChunks 0 1000 = [] ↔ (0 : Int) = 1000) ∧
     List.Chain' (fun a b => b.startTime = a.endTime + 1) (divideTimeRangeIntoChunks 0 1000) ∧
     ((0 : Int) < 1000 →
       (divideTimeRangeIntoChunks 0 1000).head?.map TimeChunk.startTime = some 0) ∧
     ((0 : Int) < 1000 →
       (divideTimeRangeIntoChunks 0 1000).getLast?.map TimeChunk.endTime =
         some (if ((1000 : Int) - 0) % (chunkSizeMs + 1) = 0 then 1000 - 1 else 1000))) :=
  ⟨by norm_num, divideTimeRangeIntoChunks_amended 0 1000 (by norm_num)⟩

/-! ## C9 — sign convention of the transforms -/

/-- C9: `transformWithdrawalToTransaction` always produces
`change = "-" ++ amount` (the exact upstream string with a minus sign
prepended, never a numeric conversion), and `transformDepositToTransaction`
returns the deposit's amount string unchanged for every successful deposit. -/
theorem transform_change_sign_spec :
    (∀ (dateMs : String → Int) (w : WithdrawResponse) (appU binU : String),
      (transformWithdrawalToTransaction dateMs w appU binU).change = "-" ++ w.amount) ∧
    (∀ (d : DepositResponse) (appU binU : String), d.status = 1 →
      ∃ t, transformDepositToTransaction d appU binU = .ok t ∧ t.change = d.amount) := by
  constructor
  · intro dateMs w appU binU
    rfl
  · intro d appU binU h
    simp only [transformDepositToTransaction, h]
    norm_num

theorem transform_change_sign_spec_witness :
    (transformWithdrawalToTransaction (fun _ => 0) exWithdrawFive "app" "bin").change
      = "-5.00000000" ∧
    exDepositFive.status = 1 ∧
    (∃ t, transformDepositToTransaction exDepositFive "app" "bin" = .ok t ∧
      t.change = exDepositFive.amount) := by
  refine ⟨?_, by decide,
    transform_change_sign_spec.2 exDepositFive "app" "bin" (by decide)⟩
  have h := transform_change_sign_spec.1 (fun _ => 0) exWithdrawFive "app" "bin"
  rw [h]
  rfl

/-! ## C7 — `calculateTimeRange` under ledger faults -/

/-- C7 (counterexample): with no explicit bounds, when the ledger lookups fail
with transport faults (not "not found"), `calculateTimeRange` does **not**
return the default 90-day window: the fallback `getLastSuccessfulSyncJob` call
is unguarded, so its error propagates, and the sync run aborts before creating
a job record. -/
theorem calculateTimeRange_claim_counterexample :
    calculateTimeRange faultLedger "deposit" none none =
      .error "Failed to get last successful sync job: connect ECONNREFUSED" ∧
    (syncDeposits
      { appUserId := "app", apiKey := "key", startTime := none, endTime := none
        binanceUserId := some "bin" }
      { ledger := faultLedger, createResult := .ok 7, events := []
        finalizeResult := .ok (), abortUpdateResult := .ok () }).outcome =
      .error "Failed to get last successful sync job: connect ECONNREFUSED" ∧
    (syncDeposits
      { appUserId := "app", apiKey := "key", startTime := none, endTime := none
        binanceUserId := some "bin" }
      { ledger := faultLedger, createResult := .ok 7, events := []
        finalizeResult := .ok (), abortUpdateResult := .ok () }).createCalls = [] := by
  decide

/-- C7 (amended): when `getNextTimeRange` errors, `calculateTimeRange` falls
back to `getLastSuccessfulSyncJob`: a transport/storage fault there propagates
(the sync aborts); a "not found" (`null`) result yields the default 90-day
lookback window ending now; a record carrying `nextStartTime` yields
`{nextStartTime, now}`. -/
theorem calculateTimeRange_amended (o : LedgerOracle) (jobType : String)
    (e1 : String) (h : o.nextTimeRange = .error e1) :
    (∀ e2, o.lastSuccessfulSyncJob = .error e2 →
      calculateTimeRange o jobType none none = .error e2) ∧
    (o.lastSuccessfulSyncJob = .ok none →
      calculateTimeRange o jobType none none =
        .ok { startTime := o.now - INITIAL_SYNC_DAYS * 24 * 60 * 60 * 1000
              endTime := o.now }) ∧
    (∀ job nst, o.lastSuccessfulSyncJob = .ok (some job) → job.nextStartTime = some nst →
      calculateTimeRange o jobType none none = .ok { startTime := nst, endTime := o.now }) := by
  refine ⟨?_, ?_, ?_⟩ <;> intros <;> simp_all [calculateTimeRange, jsOrNum]

theorem calculateTimeRange_amended_witness :
    faultLedger.nextTimeRange = .error "Failed to get next time range: timeout" ∧
    ((∀ e2, faultLedger.lastSuccessfulSyncJob = .error e2 →
       calculateTimeRange faultLedger "deposit" none none = .error e2) ∧
     (faultLedger.lastSuccessfulSyncJob = .ok none →
       calculateTimeRange faultLedger "deposit" none none =
         .ok { startTime := faultLedger.now - INITIAL_SYNC_DAYS * 24 * 60 * 60 * 1000
               endTime := faultLedger.now }) ∧
     (∀ job nst, faultLedger.lastSuccessfulSyncJob = .ok (some job) →
       job.nextStartTime = some nst →
       calculateTimeRange faultLedger "deposit" none none =
         .ok { startTime := nst, endTime := faultLedger.now })) :=
  ⟨rfl, calculateTimeRange_amended faultLedger "deposit"
    "Failed to get next time range: timeout" rfl⟩

/-! ## C3 — pagination termination -/

def exPage1000 : List DepositResponse := List.replicate 1000 exDeposit

def exBulk : BulkSaveResult := { inserted := some 1000, duplicated := some 0, failed := some 0 }

/-- C3: within one chunk, the page loop issues another request — with the
cursor advanced to the last record's timestamp + 1 — exactly when the returned
page length equals `MAX_RECORDS_PER_REQUEST` (1000), and stops on a strictly
shorter page (including an empty one); consequently an upstream that returns
exactly `limit` records on the first call and `0` on the second causes exactly
2 requests and exactly `limit` records processed. -/
theorem pageLoop_termination_spec {α : Type}
    (transform : α → Except String TransactionInput) (lastTime : α → Int)
    (chunkEnd cursor : Int) (st : Counters) (page : List α)
    (save : Except String BulkSaveResult) (evs : List (PageEvent α)) :
    (page.length ≠ MAX_RECORDS_PER_REQUEST →
      (pageLoop transform lastTime chunkEnd cursor st (.page page save :: evs)).calls
        = [(cursor, chunkEnd)] ∧
      (pageLoop transform lastTime chunkEnd cursor st (.page page save :: evs)).errorMsg
        = none) ∧
    (∀ last, page.getLast? = some last → page.length = MAX_RECORDS_PER_REQUEST →
      (pageLoop transform lastTime chunkEnd cursor st (.page page save :: evs)).calls
        = (cursor, chunkEnd) ::
          (pageLoop transform lastTime chunkEnd (lastTime last + 1)
            (processPage transform page save st) evs).calls) ∧
    (∀ last bulk save2, page.getLast? = some last →
      page.length = MAX_RECORDS_PER_REQUEST →
      (∀ r ∈ page, exceptToBool (transform r) = true) →
      save = .ok bulk →
      pageLoop transform lastTime chunkEnd cursor st
          [.page page save, .page [] save2] =
        { errorMsg := none
          counters :=
            { processed := st.processed + MAX_RECORDS_PER_REQUEST
              inserted := st.inserted + bulk.inserted.getD 0
              duplicated := st.duplicated + bulk.duplicated.getD 0
              failed := st.failed + bulk.failed.getD 0 }
          calls := [(cursor, chunkEnd), (lastTime last + 1, chunkEnd)]
          rest := [] }) := by
  have hppage : ∀ (bulk : BulkSaveResult),
      (∀ r ∈ page, exceptToBool (transform r) = true) →
      page.length = MAX_RECORDS_PER_REQUEST →
      processPage transform page (.ok bulk) st =
        { processed := st.processed + MAX_RECORDS_PER_REQUEST
          inserted := st.inserted + bulk.inserted.getD 0
          duplicated := st.duplicated + bulk.duplicated.getD 0
          failed := st.failed + bulk.failed.getD 0 } := by
    intro bulk hok h1000
    have hlen := length_filterMap_toOption transform page hok
    simp only [processPage, hlen, h1000, Nat.sub_self, Nat.add_zero, MAX_RECORDS_PER_REQUEST]
    norm_num
  refine ⟨?_, ?_, ?_⟩
  · intro hne
    by_cases h0 : page.length = 0
    · simp [pageLoop, h0]
    · simp [pageLoop, h0, hne]
  · intro last hlast h1000
    have h0 : ¬ page.length = 0 := by
      rw [h1000]
      simp [MAX_RECORDS_PER_REQUEST]
    simp [pageLoop, h0, h1000, hlast, MAX_RECORDS_PER_REQUEST]
  · intro last bulk save2 hlast h1000 hok hsave
    subst hsave
    have h0 : ¬ page.length = 0 := by
      rw [h1000]
      simp [MAX_RECORDS_PER_REQUEST]
    simp [pageLoop, h0, h1000, hlast, hppage bulk hok h1000, MAX_RECORDS_PER_REQUEST]

set_option maxRecDepth 8000 in
theorem pageLoop_termination_spec_witness :
    exPage1000.getLast? = some exDeposit ∧
    exPage1000.length = MAX_RECORDS_PER_REQUEST ∧
    (∀ r ∈ exPage1000,
      exceptToBool (transformDepositToTransaction r "app" "bin") = true) ∧
    pageLoop (fun d => transformDepositToTransaction d "app" "bin")
        (fun d => d.insertTime) 604800000 0 Counters.zero
        [.page exPage1000 (.ok exBulk),
         .page [] (.ok { inserted := none, duplicated := none, failed := none })] =
      { errorMsg := none
        counters :=
          { processed := Counters.zero.processed + MAX_RECORDS_PER_REQUEST
            inserted := Counters.zero.inserted + exBulk.inserted.getD 0
            duplicated := Counters.zero.duplicated + exBulk.duplicated.getD 0
            failed := Counters.zero.failed + exBulk.failed.getD 0 }
        calls := [(0, 604800000), (exDeposit.insertTime + 1, 604800000)]
        rest := [] } := by
  have hl : exPage1000.getLast? = some exDeposit := by decide
  have hn : exPage1000.length = MAX_RECORDS_PER_REQUEST := by decide
  have ho : ∀ r ∈ exPage1000,
      exceptToBool (transformDepositToTransaction r "app" "bin") = true := by
    intro r hr
    rw [List.eq_of_mem_replicate hr]
    decide
  exact ⟨hl, hn, ho,
    (pageLoop_termination_spec (fun d => transformDepositToTransaction d "app" "bin")
      (fun d => d.insertTime) 604800000 0 Counters.zero exPage1000 (.ok exBulk)
      []).2.2 exDeposit exBulk
      (.ok { inserted := none, duplicated := none, failed := none }) hl hn ho rfl⟩

/-- A run whose chunk loop completed but whose finalize write failed throws
the ledger error to the caller. -/
theorem syncRun_finalize_error {α : Type} (jobType missingUserMsg : String)
    (transform : α → Except String TransactionInput) (lastTime : α → Int)
    (options : SyncOptions) (o : SyncOracle α) (r : RunResult)
    (hr : syncRun jobType missingUserMsg transform lastTime options o = r)
    (msg : String) (hc : r.chunkLoopCompleted = true)
    (hf : o.finalizeResult = .error msg) :
    r.outcome = .error msg := by
  unfold syncRun at hr
  repeat' split at hr
  all_goals subst hr
  · simp at hc
  · simp at hc
  · simp at hc
  · simp at hc
  · -- the finalize-ok branch contradicts `hf`
    simp_all
  · -- finalize-error branch
    dsimp only at hc ⊢
    split at hc
    · simp at hc
    · simp_all

/-! ## C1 — the `nextStartTime` invariant -/

/-- C1: every run (deposit or withdraw) that completes without an aborting
error returns and persists `nextStartTime = window.end + 1` (whatever terminal
status was computed), where the window is the one `calculateTimeRange`
resolved; a run that aborts with an error never persists a `nextStartTime`
(the only successful write it can make is the catch-block `{status: 'failed',
errorMessage}` update). -/
theorem nextStartTime_invariant :
    (∀ (options : SyncOptions) (o : SyncOracle DepositResponse) (res : SyncJobResult),
      (syncDeposits options o).outcome = .ok res →
        res.nextStartTime = some (res.endTime + 1) ∧
        (∃ u ∈ (syncDeposits options o).updateCalls,
          u.succeeded = true ∧ u.payload.nextStartTime = some (res.endTime + 1)) ∧
        (∀ tr, calculateTimeRange o.ledger "deposit" options.startTime options.endTime
            = .ok tr → res.endTime = tr.endTime)) ∧
    (∀ (options : SyncOptions) (o : SyncOracle DepositResponse) (msg : String),
      (syncDeposits options o).outcome = .error msg →
        ∀ u ∈ (syncDeposits options o).updateCalls, u.succeeded = true →
          u.payload.nextStartTime = none) ∧
    (∀ (dateMs : String → Int) (options : SyncOptions) (o : SyncOracle WithdrawResponse)
        (res : SyncJobResult),
      (syncWithdrawals dateMs options o).outcome = .ok res →
        res.nextStartTime = some (res.endTime + 1) ∧
        (∃ u ∈ (syncWithdrawals dateMs options o).updateCalls,
          u.succeeded = true ∧ u.payload.nextStartTime = some (res.endTime + 1)) ∧
        (∀ tr, calculateTimeRange o.ledger "withdraw" options.startTime options.endTime
            = .ok tr → res.endTime = tr.endTime)) ∧
    (∀ (dateMs : String → Int) (options : SyncOptions) (o : SyncOracle WithdrawResponse)
        (msg : String),
      (syncWithdrawals dateMs options o).outcome = .error msg →
        ∀ u ∈ (syncWithdrawals dateMs options o).updateCalls, u.succeeded = true →
          u.payload.nextStartTime = none) := by
  refine ⟨?_, ?_, ?_, ?_⟩
  · intro options o res h
    obtain ⟨h1, _, _, h4, _, h6⟩ :=
      syncRun_ok "deposit" "binanceUserId is required for syncing deposits"
        (fun d => transformDepositToTransaction d options.appUserId
          (options.binanceUserId.getD ""))
        (fun d => d.insertTime) options o (syncDeposits options o) rfl res h
    refine ⟨h1, ?_, fun tr htr => (h6 tr htr).2⟩
    rw [h4]
    exact ⟨⟨res.syncJobId, finalizePayloadOf res, true⟩, by simp, rfl,
      by simp [finalizePayloadOf, h1]⟩
  · intro options o msg h u hu hs
    have hu2 := syncRun_error_updates "deposit"
      "binanceUserId is required for syncing deposits"
      (fun d => transformDepositToTransaction d options.appUserId
        (options.binanceUserId.getD ""))
      (fun d => d.insertTime) options o (syncDeposits options o) rfl msg h u hu hs
    rw [hu2]
    rfl
  · intro dateMs options o res h
    obtain ⟨h1, _, _, h4, _, h6⟩ :=
      syncRun_ok "withdraw" "binanceUserId is required for syncing withdrawals"
        (fun w => .ok (transformWithdrawalToTransaction dateMs w options.appUserId
          (options.binanceUserId.getD "")))
        (fun w => dateMs (if w.completeTime ≠ "" then w.completeTime else w.applyTime))
        options o (syncWithdrawals dateMs options o) rfl res h
    refine ⟨h1, ?_, fun tr htr => (h6 tr htr).2⟩
    rw [h4]
    exact ⟨⟨res.syncJobId, finalizePayloadOf res, true⟩, by simp, rfl,
      by simp [finalizePayloadOf, h1]⟩
  · intro dateMs options o msg h u hu hs
    have hu2 := syncRun_error_updates "withdraw"
      "binanceUserId is required for syncing withdrawals"
      (fun w => .ok (transformWithdrawalToTransaction dateMs w options.appUserId
        (options.binanceUserId.getD "")))
      (fun w => dateMs (if w.completeTime ≠ "" then w.completeTime else w.applyTime))
      options o (syncWithdrawals dateMs options o) rfl msg h u hu hs
    rw [hu2]
    rfl

/-- The result of the empty happy run used by several witnesses. -/
def exHappyRes : SyncJobResult :=
  { syncJobId := 7, jobType := "deposit", startTime := 0, endTime := 1000
    recordsProcessed := 0, recordsInserted := 0, recordsDuplicated := 0
    recordsFailed := 0, status := "success", errorMessage := none
    nextStartTime := some 1001 }

theorem nextStartTime_invariant_witness :
    (syncDeposits (exOptions 0 1000) exOracleHappy).outcome = .ok exHappyRes ∧
    (exHappyRes.nextStartTime = some (exHappyRes.endTime + 1) ∧
     (∃ u ∈ (syncDeposits (exOptions 0 1000) exOracleHappy).updateCalls,
       u.succeeded = true ∧ u.payload.nextStartTime = some (exHappyRes.endTime + 1)) ∧
     (∀ tr, calculateTimeRange exOracleHappy.ledger "deposit" (exOptions 0 1000).startTime
        (exOptions 0 1000).endTime = .ok tr → exHappyRes.endTime = tr.endTime)) :=
  ⟨by decide, nextStartTime_invariant.1 (exOptions 0 1000) exOracleHappy exHappyRes (by decide)⟩

/-! ## C4 — status derivation -/

/-- C4 (counterexample): the claim's first implication
(`recordsFailed == 0 ⇒ status success`) fails for aborted runs: a run whose
very first fetch throws has `recordsFailed = 0` at the abort, yet is finalized
(and persisted) with status `'failed'`, not `'success'`. -/
theorem finalStatus_claim_counterexample :
    (syncDeposits (exOptions 0 1000) exOracleAbort).counters.failed = 0 ∧
    (syncDeposits (exOptions 0 1000) exOracleAbort).outcome =
      .error "Failed to fetch deposit history: network error" ∧
    (syncDeposits (exOptions 0 1000) exOracleAbort).updateCalls =
      [⟨7, abortUpdatePayload "Failed to fetch deposit history: network error", true⟩] ∧
    (abortUpdatePayload "Failed to fetch deposit history: network error").status
      = some "failed" ∧
    some ("failed" : String) ≠ some "success" := by
  decide

/-- C4 (amended): for runs that complete the chunk loop without an aborting
error, the returned status satisfies the claimed derivation
(`recordsFailed == 0 ⇒ success`; `0 < recordsFailed < recordsProcessed ⇒
partial`; `recordsProcessed == 0 ∧ 0 < recordsFailed ⇒ failed`); a run that
aborts is always finalized `'failed'` regardless of its counters. -/
theorem finalStatus_amended :
    (∀ (options : SyncOptions) (o : SyncOracle DepositResponse) (res : SyncJobResult),
      (syncDeposits options o).outcome = .ok res →
        (res.recordsFailed = 0 → res.status = "success") ∧
        (0 < res.recordsFailed → res.recordsFailed < res.recordsProcessed →
          res.status = "partial") ∧
        (res.recordsProcessed = 0 → 0 < res.recordsFailed → res.status = "failed")) ∧
    (∀ (options : SyncOptions) (o : SyncOracle DepositResponse) (msg : String),
      (syncDeposits options o).outcome = .error msg →
        ∀ u ∈ (syncDeposits options o).updateCalls, u.succeeded = true →
          u.payload.status = some "failed") ∧
    (∀ (dateMs : String → Int) (options : SyncOptions) (o : SyncOracle WithdrawResponse)
        (res : SyncJobResult),
      (syncWithdrawals dateMs options o).outcome = .ok res →
        (res.recordsFailed = 0 → res.status = "success") ∧
        (0 < res.recordsFailed → res.recordsFailed < res.recordsProcessed →
          res.status = "partial") ∧
        (res.recordsProcessed = 0 → 0 < res.recordsFailed → res.status = "failed")) ∧
    (∀ (dateMs : String → Int) (options : SyncOptions) (o : SyncOracle WithdrawResponse)
        (msg : String),
      (syncWithdrawals dateMs options o).outcome = .error msg →
        ∀ u ∈ (syncWithdrawals dateMs options o).updateCalls, u.succeeded = true →
          u.payload.status = some "failed") := by
  refine ⟨?_, ?_, ?_, ?_⟩
  · intro options o res h
    obtain ⟨_, hstat, _⟩ :=
      syncRun_ok "deposit" "binanceUserId is required for syncing deposits"
        (fun d => transformDepositToTransaction d options.appUserId
          (options.binanceUserId.getD ""))
        (fun d => d.insertTime) options o (syncDeposits options o) rfl res h
    refine ⟨fun hf => ?_, fun hf hp => ?_, fun hp hf => ?_⟩
    · rw [hstat, if_pos hf]
    · rw [hstat, if_neg (by omega), if_pos (by omega)]
    · rw [hstat, if_neg (by omega), if_neg (by omega)]
  · intro options o msg h u hu hs
    have hu2 := syncRun_error_updates "deposit"
      "binanceUserId is required for syncing deposits"
      (fun d => transformDepositToTransaction d options.appUserId
        (options.binanceUserId.getD ""))
      (fun d => d.insertTime) options o (syncDeposits options o) rfl msg h u hu hs
    rw [hu2]
    rfl
  · intro dateMs options o res h
    obtain ⟨_, hstat, _⟩ :=
      syncRun_ok "withdraw" "binanceUserId is required for syncing withdrawals"
        (fun w => .ok (transformWithdrawalToTransaction dateMs w options.appUserId
          (options.binanceUserId.getD "")))
        (fun w => dateMs (if w.completeTime ≠ "" then w.completeTime else w.applyTime))
        options o (syncWithdrawals dateMs options o) rfl res h
    refine ⟨fun hf => ?_, fun hf hp => ?_, fun hp hf => ?_⟩
    · rw [hstat, if_pos hf]
    · rw [hstat, if_neg (by omega), if_pos (by omega)]
    · rw [hstat, if_neg (by omega), if_neg (by omega)]
  · intro dateMs options o msg h u hu hs
    have hu2 := syncRun_error_updates "withdraw"
      "binanceUserId is required for syncing withdrawals"
      (fun w => .ok (transformWithdrawalToTransaction dateMs w options.appUserId
        (options.binanceUserId.getD "")))
      (fun w => dateMs (if w.completeTime ≠ "" then w.completeTime else w.applyTime))
      options o (syncWithdrawals dateMs options o) rfl msg h u hu hs
    rw [hu2]
    rfl

theorem finalStatus_amended_witness :
    (syncDeposits (exOptions 0 1000) exOracleHappy).outcome = .ok exHappyRes ∧
    ((exHappyRes.recordsFailed = 0 → exHappyRes.status = "success") ∧
     (0 < exHappyRes.recordsFailed → exHappyRes.recordsFailed < exHappyRes.recordsProcessed →
       exHappyRes.status = "partial") ∧
     (exHappyRes.recordsProcessed = 0 → 0 < exHappyRes.recordsFailed →
       exHappyRes.status = "failed")) :=
  ⟨by decide, finalStatus_amended.1 (exOptions 0 1000) exOracleHappy exHappyRes (by decide)⟩

/-! ## C5 — initial status of the created SyncJob row -/

/-- C5 (counterexample): the SyncJob record is **not** created in `'running'`
status: `'running'` is not even a member of the status union accepted by
`createSyncJob`, and the run creates the row with status `'partial'`
(commented "Will be updated at the end" in the source). -/
theorem createStatus_claim_counterexample :
    "running" ∉ createSyncJobAllowedStatuses ∧
    (syncDeposits (exOptions 0 1000) exOracleHappy).createCalls =
      [{ jobType := "deposit", startTime := 0, endTime := 1000, status := "partial" }] ∧
    ("partial" : String) ≠ "running" := by
  decide

/-- C5 (amended): at the start of every sync run that reaches the create step,
the SyncJob record is created with initial status `'partial'`, which is a
member of the status union accepted by the ledger's create operation
(`'success' | 'failed' | 'partial'`). -/
theorem createStatus_amended :
    (∀ (options : SyncOptions) (o : SyncOracle DepositResponse),
      ∀ p ∈ (syncDeposits options o).createCalls,
        p.status = "partial" ∧ p.status ∈ createSyncJobAllowedStatuses) ∧
    (∀ (dateMs : String → Int) (options : SyncOptions) (o : SyncOracle WithdrawResponse),
      ∀ p ∈ (syncWithdrawals dateMs options o).createCalls,
        p.status = "partial" ∧ p.status ∈ createSyncJobAllowedStatuses) := by
  constructor
  · intro options o p hp
    have h := (syncRun_createCalls "deposit"
      "binanceUserId is required for syncing deposits"
      (fun d => transformDepositToTransaction d options.appUserId
        (options.binanceUserId.getD ""))
      (fun d => d.insertTime) options o (syncDeposits options o) rfl p hp).1
    refine ⟨h, ?_⟩
    rw [h]
    simp [createSyncJobAllowedStatuses]
  · intro dateMs options o p hp
    have h := (syncRun_createCalls "withdraw"
      "binanceUserId is required for syncing withdrawals"
      (fun w => .ok (transformWithdrawalToTransaction dateMs w options.appUserId
        (options.binanceUserId.getD "")))
      (fun w => dateMs (if w.completeTime ≠ "" then w.completeTime else w.applyTime))
      options o (syncWithdrawals dateMs options o) rfl p hp).1
    refine ⟨h, ?_⟩
    rw [h]
    simp [createSyncJobAllowedStatuses]

theorem createStatus_amended_witness :
    ({ jobType := "deposit", startTime := 0, endTime := 1000, status := "partial" }
        : CreateSyncJobPayload)
      ∈ (syncDeposits (exOptions 0 1000) exOracleHappy).createCalls ∧
    (({ jobType := "deposit", startTime := 0, endTime := 1000, status := "partial" }
        : CreateSyncJobPayload).status = "partial" ∧
     ({ jobType := "deposit", startTime := 0, endTime := 1000, status := "partial" }
        : CreateSyncJobPayload).status ∈ createSyncJobAllowedStatuses) :=
  ⟨by decide, createStatus_amended.1 (exOptions 0 1000) exOracleHappy _ (by decide)⟩

/-! ## C6 — fetch errors after prior progress -/

/-- C6 (counterexample): a run with a successfully loaded batch
(`recordsProcessed = 1`, progress) whose next chunk's fetch throws is finalized
`'failed'`, not `'partial'`: the catch block writes `{status: 'failed'}`
unconditionally. -/
theorem fetchAbort_claim_counterexample :
    0 < (syncDeposits (exOptions 0 604800002) exOracleProgressThenAbort).counters.processed ∧
    (syncDeposits (exOptions 0 604800002) exOracleProgressThenAbort).outcome =
      .error "Failed to fetch deposit history: HTTP 500" ∧
    (syncDeposits (exOptions 0 604800002) exOracleProgressThenAbort).updateCalls =
      [⟨7, abortUpdatePayload "Failed to fetch deposit history: HTTP 500", true⟩] ∧
    (abortUpdatePayload "Failed to fetch deposit history: HTTP 500").status
      = some "failed" ∧
    some ("failed" : String) ≠ some "partial" := by
  decide

/-- C6 (amended): every run that aborts with an error — in particular on a
page-fetch transport/HTTP failure, with or without prior progress — only ever
persists the catch-block update `{status: 'failed', errorMessage: msg}`; no
`'partial'` finalization happens on an abort. -/
theorem fetchAbort_amended :
    (∀ (options : SyncOptions) (o : SyncOracle DepositResponse) (msg : String),
      (syncDeposits options o).outcome = .error msg →
        ∀ u ∈ (syncDeposits options o).updateCalls, u.succeeded = true →
          u.payload = abortUpdatePayload msg) ∧
    (∀ (dateMs : String → Int) (options : SyncOptions) (o : SyncOracle WithdrawResponse)
        (msg : String),
      (syncWithdrawals dateMs options o).outcome = .error msg →
        ∀ u ∈ (syncWithdrawals dateMs options o).updateCalls, u.succeeded = true →
          u.payload = abortUpdatePayload msg) := by
  constructor
  · intro options o msg h
    exact syncRun_error_updates "deposit"
      "binanceUserId is required for syncing deposits"
      (fun d => transformDepositToTransaction d options.appUserId
        (options.binanceUserId.getD ""))
      (fun d => d.insertTime) options o (syncDeposits options o) rfl msg h
  · intro dateMs options o msg h
    exact syncRun_error_updates "withdraw"
      "binanceUserId is required for syncing withdrawals"
      (fun w => .ok (transformWithdrawalToTransaction dateMs w options.appUserId
        (options.binanceUserId.getD "")))
      (fun w => dateMs (if w.completeTime ≠ "" then w.completeTime else w.applyTime))
      options o (syncWithdrawals dateMs options o) rfl msg h

theorem fetchAbort_amended_witness :
    (syncDeposits (exOptions 0 1000) exOracleAbort).outcome =
      .error "Failed to fetch deposit history: network error" ∧
    (⟨7, abortUpdatePayload "Failed to fetch deposit history: network error", true⟩
        : UpdateAttempt)
      ∈ (syncDeposits (exOptions 0 1000) exOracleAbort).updateCalls ∧
    ((⟨7, abortUpdatePayload "Failed to fetch deposit history: network error", true⟩
        : UpdateAttempt).succeeded = true) ∧
    ((⟨7, abortUpdatePayload "Failed to fetch deposit history: network error", true⟩
        : UpdateAttempt).payload
      = abortUpdatePayload "Failed to fetch deposit history: network error") :=
  ⟨by decide, by decide, by decide,
    fetchAbort_amended.1 (exOptions 0 1000) exOracleAbort
      "Failed to fetch deposit history: network error" (by decide) _ (by decide) (by decide)⟩

/-! ## C8 — a failing finalize write -/

/-- C8 (counterexample): when the finalize `updateSyncJob` write errors after
all chunks were processed, the orchestrator does **not** return the computed
result: the error lands in the catch block, a second update marks the job
`'failed'`, and the ledger error is thrown to the caller. -/
theorem finalizeError_claim_counterexample :
    (syncDeposits (exOptions 0 1000) exOracleFinalizeFail).chunkLoopCompleted = true ∧
    (syncDeposits (exOptions 0 1000) exOracleFinalizeFail).outcome =
      .error "Failed to update sync job: db down" ∧
    (syncDeposits (exOptions 0 1000) exOracleFinalizeFail).updateCalls =
      [⟨7, { status := some "success", recordsProcessed := some 0
             recordsInserted := some 0, recordsDuplicated := some 0
             recordsFailed := some 0, errorMessage := none
             nextStartTime := some 1001 }, false⟩,
       ⟨7, abortUpdatePayload "Failed to update sync job: db down", true⟩] := by
  decide

/-- C8 (amended): if the finalize write errors after the chunk loop completed,
the run throws that ledger error to the caller (the computed sync result is
not returned), and the only update that can have been persisted is the
catch-block `{status: 'failed', errorMessage}` write. -/
theorem finalizeError_amended :
    (∀ (options : SyncOptions) (o : SyncOracle DepositResponse) (msg : String),
      (syncDeposits options o).chunkLoopCompleted = true →
      o.finalizeResult = .error msg →
        (syncDeposits options o).outcome = .error msg ∧
        ∀ u ∈ (syncDeposits options o).updateCalls, u.succeeded = true →
          u.payload = abortUpdatePayload msg) ∧
    (∀ (dateMs : String → Int) (options : SyncOptions) (o : SyncOracle WithdrawResponse)
        (msg : String),
      (syncWithdrawals dateMs options o).chunkLoopCompleted = true →
      o.finalizeResult = .error msg →
        (syncWithdrawals dateMs options o).outcome = .error msg ∧
        ∀ u ∈ (syncWithdrawals dateMs options o).updateCalls, u.succeeded = true →
          u.payload = abortUpdatePayload msg) := by
  constructor
  · intro options o msg hc hf
    have hout := syncRun_finalize_error "deposit"
      "binanceUserId is required for syncing deposits"
      (fun d => transformDepositToTransaction d options.appUserId
        (options.binanceUserId.getD ""))
      (fun d => d.insertTime) options o (syncDeposits options o) rfl msg hc hf
    exact ⟨hout, syncRun_error_updates "deposit"
      "binanceUserId is required for syncing deposits"
      (fun d => transformDepositToTransaction d options.appUserId
        (options.binanceUserId.getD ""))
      (fun d => d.insertTime) options o (syncDeposits options o) rfl msg hout⟩
  · intro dateMs options o msg hc hf
    have hout := syncRun_finalize_error "withdraw"
      "binanceUserId is required for syncing withdrawals"
      (fun w => .ok (transformWithdrawalToTransaction dateMs w options.appUserId
        (options.binanceUserId.getD "")))
      (fun w => dateMs (if w.completeTime ≠ "" then w.completeTime else w.applyTime))
      options o (syncWithdrawals dateMs options o) rfl msg hc hf
    exact ⟨hout, syncRun_error_updates "withdraw"
      "binanceUserId is required for syncing withdrawals"
      (fun w => .ok (transformWithdrawalToTransaction dateMs w options.appUserId
        (options.binanceUserId.getD "")))
      (fun w => dateMs (if w.completeTime ≠ "" then w.completeTime else w.applyTime))
      options o (syncWithdrawals dateMs options o) rfl msg hout⟩

theorem finalizeError_amended_witness :
    (syncDeposits (exOptions 0 1000) exOracleFinalizeFail).chunkLoopCompleted = true ∧
    exOracleFinalizeFail.finalizeResult = .error "Failed to update sync job: db down" ∧
    ((syncDeposits (exOptions 0 1000) exOracleFinalizeFail).outcome =
        .error "Failed to update sync job: db down" ∧
     ∀ u ∈ (syncDeposits (exOptions 0 1000) exOracleFinalizeFail).updateCalls,
       u.succeeded = true →
         u.payload = abortUpdatePayload "Failed to update sync job: db down") :=
  ⟨by decide, rfl,
    finalizeError_amended.1 (exOptions 0 1000) exOracleFinalizeFail
      "Failed to update sync job: db down" (by decide) rfl⟩

/-! ## C10 — degenerate windows -/

/-- C10: for a forced window with `startTime ≥ endTime` (including the
single-instant window `start = end`), `divideTimeRangeIntoChunks` returns the
empty list, so the run issues zero upstream requests, returns status
`'success'` with all four counters 0, and still persists
`nextStartTime = endTime + 1`. -/
theorem emptyWindow_run_spec (s e : Int) (options : SyncOptions)
    (o : SyncOracle DepositResponse) (syncJobId : Int)
    (hs : options.startTime = some s) (he : options.endTime = some e) (hse : e ≤ s)
    (hbin : ¬ (options.binanceUserId = none ∨ options.binanceUserId = some ""))
    (hcr : o.createResult = .ok syncJobId) (hid : ¬ syncJobId = 0)
    (hfin : o.finalizeResult = .ok ()) :
    divideTimeRangeIntoChunks s e = [] ∧
    (syncDeposits options o).fetchCalls = [] ∧
    (syncDeposits options o).outcome = .ok
      { syncJobId := syncJobId, jobType := "deposit", startTime := s, endTime := e
        recordsProcessed := 0, recordsInserted := 0, recordsDuplicated := 0
        recordsFailed := 0, status := "success", errorMessage := none
        nextStartTime := some (e + 1) } ∧
    (syncDeposits options o).updateCalls =
      [⟨syncJobId,
        { status := some "success", recordsProcessed := some 0, recordsInserted := some 0
          recordsDuplicated := some 0, recordsFailed := some 0, errorMessage := none
          nextStartTime := some (e + 1) }, true⟩] := by
  have hchunks : divideTimeRangeIntoChunks s e = [] :=
    (divideTimeRangeIntoChunks_eq_nil_iff s e).mpr hse
  have hcalc : calculateTimeRange o.ledger "deposit" options.startTime options.endTime
      = .ok { startTime := s, endTime := e } := by
    rw [hs, he]
    simp [calculateTimeRange]
  have hrun : syncDeposits options o =
      { outcome := .ok
          { syncJobId := syncJobId, jobType := "deposit", startTime := s, endTime := e
            recordsProcessed := 0, recordsInserted := 0, recordsDuplicated := 0
            recordsFailed := 0, status := "success", errorMessage := none
            nextStartTime := some (e + 1) }
        createCalls := [{ jobType := "deposit", startTime := s, endTime := e
                          status := "partial" }]
        updateCalls :=
          [⟨syncJobId,
            { status := some "success", recordsProcessed := some 0
              recordsInserted := some 0, recordsDuplicated := some 0
              recordsFailed := some 0, errorMessage := none
              nextStartTime := some (e + 1) }, true⟩]
        fetchCalls := [], counters := Counters.zero, chunkLoopCompleted := true } := by
    unfold syncDeposits syncRun
    rw [if_neg hbin, hcalc]
    simp [hcr, hfin, hchunks, hid, chunkLoop, Counters.zero]
  rw [hrun]
  exact ⟨hchunks, rfl, rfl, rfl⟩

theorem emptyWindow_run_spec_witness :
    (exOptions 100 100).startTime = some 100 ∧
    (exOptions 100 100).endTime = some 100 ∧
    (100 : Int) ≤ 100 ∧
    ¬ ((exOptions 100 100).binanceUserId = none ∨
       (exOptions 100 100).binanceUserId = some "") ∧
    exOracleHappy.createResult = .ok 7 ∧
    ¬ (7 : Int) = 0 ∧
    exOracleHappy.finalizeResult = .ok () ∧
    (divideTimeRangeIntoChunks 100 100 = [] ∧
     (syncDeposits (exOptions 100 100) exOracleHappy).fetchCalls = [] ∧
     (syncDeposits (exOptions 100 100) exOracleHappy).outcome = .ok
       { syncJobId := 7, jobType := "deposit", startTime := 100, endTime := 100
         recordsProcessed := 0, recordsInserted := 0, recordsDuplicated := 0
         recordsFailed := 0, status := "success", errorMessage := none
         nextStartTime := some (100 + 1) } ∧
     (syncDeposits (exOptions 100 100) exOracleHappy).updateCalls =
       [⟨7, { status := some "success", recordsProcessed := some 0
              recordsInserted := some 0, recordsDuplicated := some 0
              recordsFailed := some 0, errorMessage := none
              nextStartTime := some (100 + 1) }, true⟩]) :=
  ⟨rfl, rfl, by decide, by decide, rfl, by decide, rfl,
    emptyWindow_run_spec 100 100 (exOptions 100 100) exOracleHappy 7
      rfl rfl (by decide) (by decide) rfl (by decide) rfl⟩

end BinanceOrchestrator
